import Mathlib

/-!
Verification development for the OmniArch smart-meeting system.

Shallow embedding of the frontend pages (BookingPage, TasksPage, SettingsPage),
the shared utility functions, the Supabase data-model types, and a model of the
booking transaction engine described by the design document.  JavaScript numbers
that only ever hold simple decimal literals are embedded as rationals; strings
are embedded as Lean strings.
-/

namespace OmniArch

/-! ### Utility functions (src/lib/utils.ts) -/

/-- Embedding of getMatchScoreColor from utils.ts:
if (score >= 0.9) return bg-green-500; if (score >= 0.7) return bg-yellow-500;
return bg-red-500. -/
def getMatchScoreColor (score : ℚ) : String :=
  if 9/10 ≤ score then "bg-green-500"
  else if 7/10 ≤ score then "bg-yellow-500"
  else "bg-red-500"

/-! ### Database model types (supabase client module) -/

/-- MeetingRoom.status in the Supabase data model: 'available' | 'booked'. -/
inductive RoomStatus
  | available
  | booked
deriving DecidableEq, Repr

/-- The string literal each RoomStatus constructor stands for. -/
def RoomStatus.toStr : RoomStatus → String
  | .available => "available"
  | .booked => "booked"

/-- Meeting.status in the Supabase data model: 'booked' | 'cancelled'. -/
inductive MeetingStatus
  | booked
  | cancelled
deriving DecidableEq, Repr

/-- The string literal each MeetingStatus constructor stands for. -/
def MeetingStatus.toStr : MeetingStatus → String
  | .booked => "booked"
  | .cancelled => "cancelled"

/-! ### TasksPage -/

/-- Task.status in TasksPage: 'draft' | 'confirmed' | 'done'. -/
inductive TaskStatus
  | draft
  | confirmed
  | done
deriving DecidableEq, Repr

/-- A task as displayed on the task board (TasksPage). -/
structure Task where
  id : String
  description : String
  owner : String
  department : String
  due_date : String
  status : TaskStatus
deriving DecidableEq, Repr

/-- The mockTasks list hard-coded in TasksPage. -/
def mockTasks : List Task :=
  [ ⟨"1", "完成前端主要功能开发", "张三", "研发部", "2025-01-20", .confirmed⟩,
    ⟨"2", "补充测试用例到80%覆盖率", "李四", "测试部", "2025-01-18", .draft⟩,
    ⟨"3", "准备产品发布材料", "王五", "市场部", "2025-01-25", .draft⟩,
    ⟨"4", "优化后端性能", "赵六", "研发部", "2025-01-22", .done⟩,
    ⟨"5", "用户调研报告", "孙七", "产品部", "2025-01-30", .confirmed⟩ ]

/-- Embedding of updateTaskStatus from TasksPage:
tasks.map(task => task.id === taskId ? spread task with status = newStatus : task). -/
def updateTaskStatus (tasks : List Task) (taskId : String) (newStatus : TaskStatus) :
    List Task :=
  tasks.map fun task => if task.id = taskId then { task with status := newStatus } else task

/-! ### SettingsPage -/

/-- User.role: 'organizer' | 'participant' | 'admin'. -/
inductive Role
  | organizer
  | participant
  | admin
deriving DecidableEq, Repr

/-- A user row in SettingsPage. -/
structure User where
  id : String
  username : String
  role : Role
  department : String
deriving DecidableEq, Repr

/-- The mockUsers list hard-coded in SettingsPage. -/
def mockUsers : List User :=
  [ ⟨"1", "admin", .admin, "管理部"⟩,
    ⟨"2", "张三", .organizer, "研发部"⟩,
    ⟨"3", "李四", .participant, "测试部"⟩,
    ⟨"4", "王五", .organizer, "市场部"⟩ ]

/-- The newUser form state in SettingsPage. -/
structure NewUserForm where
  username : String
  role : Role
  department : String
deriving DecidableEq, Repr

/-- The reset value the form takes after a successful add. -/
def emptyNewUserForm : NewUserForm := ⟨"", Role.participant, ""⟩

/-- Outcome of handleAddUser: either the validation toast fired or a user was added. -/
inductive AddUserOutcome
  | validationError
  | added
deriving DecidableEq, Repr

/-- Embedding of handleAddUser from SettingsPage.  The id generated by
Date.now().toString() is passed in as the newId parameter.  A falsy username or
department (the empty string) aborts with an error toast and no state change;
otherwise the new user is appended and the form is reset. -/
def handleAddUser (users : List User) (form : NewUserForm) (newId : String) :
    List User × NewUserForm × AddUserOutcome :=
  if form.username = "" ∨ form.department = "" then
    (users, form, .validationError)
  else
    (users ++ [⟨newId, form.username, form.role, form.department⟩],
     emptyNewUserForm, .added)

/-! ### BookingPage -/

/-- The structured meeting request (MeetingIntent) in BookingPage. -/
structure MeetingIntent where
  datetime : String
  participants : Nat
  location : String
  requirements : List String
deriving DecidableEq, Repr

/-- A room recommendation row in BookingPage.  The match score, a JavaScript
number holding a decimal literal, is embedded as a rational. -/
structure RoomRecommendation where
  room_id : String
  name : String
  capacity : Nat
  equipment : List String
  status : String
  match_score : ℚ
  deviation : List String
deriving DecidableEq, Repr

/-- The mockIntent value handleSubmit installs after parsing. -/
def mockIntent : MeetingIntent :=
  ⟨"2025-01-15T15:00:00", 10, "A栋", ["视频会议"]⟩

/-- First element of mockRecommendations: room A301. -/
def recA301 : RoomRecommendation :=
  ⟨"A301", "A栋301会议室", 12, ["视频会议", "白板", "投影仪"], "available", 92/100, []⟩

/-- Second element of mockRecommendations: room A305. -/
def recA305 : RoomRecommendation :=
  ⟨"A305", "A栋305会议室", 10, ["白板", "投影仪"], "available", 75/100, ["缺少视频会议"]⟩

/-- Third element of mockRecommendations: room B201. -/
def recB201 : RoomRecommendation :=
  ⟨"B201", "B栋201会议室", 15, ["视频会议", "白板", "投影仪", "音响"], "available", 88/100,
   ["容量超出需求"]⟩

/-- The mockRecommendations list hard-coded in BookingPage, in source order. -/
def mockRecommendations : List RoomRecommendation := [recA301, recA305, recB201]

/-- The component state of BookingPage that handleSubmit touches. -/
structure BookingPageState where
  inputText : String
  isProcessing : Bool
  intent : Option MeetingIntent
  recommendations : List RoomRecommendation
deriving DecidableEq, Repr

/-- What a call to handleSubmit reports back: the validation toast, or the
recognised intent together with the recommendation list it published. -/
inductive SubmitOutcome
  | validationError
  | ok (intent : MeetingIntent) (recs : List RoomRecommendation)
deriving DecidableEq, Repr

/-- A string is blank when every character is whitespace — precisely the
strings on which the falsiness test of text.trim() in JavaScript fires. -/
def isBlank (s : String) : Bool := s.data.all Char.isWhitespace

/-- Embedding of handleSubmit from BookingPage.  A blank (empty after trim)
input fires an error toast and changes nothing; otherwise, once the simulated
call completes, the intent and recommendation state are set to the mock values
and processing ends. -/
def handleSubmit (s : BookingPageState) : BookingPageState × SubmitOutcome :=
  if isBlank s.inputText then
    (s, .validationError)
  else
    ({ s with isProcessing := false, intent := some mockIntent,
              recommendations := mockRecommendations },
     .ok mockIntent mockRecommendations)

/-- The ordering the design document requires of recommendation lists:
descending by match score, ties broken by ascending room identifier. -/
def recBefore (a b : RoomRecommendation) : Prop :=
  b.match_score < a.match_score ∨
    (a.match_score = b.match_score ∧ a.room_id < b.room_id)

/-- The booking-form state confirmBooking reads and resets. -/
structure BookingForm where
  title : String
  duration : Nat
deriving DecidableEq, Repr

/-! ### Booking transaction engine

The frontend's confirmBooking is a mock that creates no Booking record; the
book/cancel/alter engine of the design document is not part of the sources.
It is modelled here from the design document. -/

/-- A time range with start and end instants; half-open interval semantics. -/
structure TimeRange where
  start : Nat
  stop : Nat
deriving DecidableEq, Repr

/-- Two ranges overlap iff a.start < b.end and b.start < a.end. -/
def Overlap (a b : TimeRange) : Prop :=
  a.start < b.stop ∧ b.start < a.stop

instance (a b : TimeRange) : Decidable (Overlap a b) :=
  inferInstanceAs (Decidable (_ ∧ _))

/-- Booking status: booked or cancelled, cancellation terminal. -/
inductive BStatus
  | booked
  | cancelled
deriving DecidableEq, Repr

/-- A booking record: identifier, room, organizer, title, time range, status. -/
structure Booking where
  id : Nat
  room : String
  organizer : String
  title : String
  range : TimeRange
  status : BStatus
deriving DecidableEq, Repr

/-- Failure taxonomy of the booking operations. -/
inductive BookError
  | validationError
  | conflict
  | notFound
deriving DecidableEq, Repr

/-- A booking identifier strictly larger than every identifier in the store. -/
def freshId (bs : List Booking) : Nat :=
  bs.foldr (fun b m => max (b.id + 1) m) 0

/-- Modelled from the spec: AvailabilityIndex.isFree — true iff no existing
booked interval for that room overlaps the requested range. -/
def isFree (bs : List Booking) (r : String) (t : TimeRange) : Bool :=
  bs.all fun b => !(decide (b.room = r ∧ b.status = BStatus.booked ∧ Overlap b.range t))

/-- Modelled from the spec: BookingTransactionManager.book — re-validate isFree;
if free, persist a new Booking with status booked; if not free, fail with
Conflict; a range with start ≥ end fails with ValidationError. -/
def book (bs : List Booking) (r org title : String) (t : TimeRange) :
    Except BookError (List Booking) :=
  if t.start < t.stop then
    if isFree bs r t then
      .ok (bs ++ [⟨freshId bs, r, org, title, t, .booked⟩])
    else .error .conflict
  else .error .validationError

/-- The per-record update cancel performs: the matching identifier goes to
status cancelled, every other record is untouched. -/
def cancelOne (bid : Nat) (b : Booking) : Booking :=
  if b.id = bid then { b with status := BStatus.cancelled } else b

/-- Modelled from the spec: BookingTransactionManager.cancel — idempotent,
cancelling an already-cancelled booking succeeds silently; unknown booking
identifiers fail with NotFound. -/
def cancel (bs : List Booking) (bid : Nat) : Except BookError (List Booking) :=
  if bs.any (fun b => decide (b.id = bid)) then
    .ok (bs.map (cancelOne bid))
  else .error .notFound

/-- The per-record update alter performs: the matching identifier takes the new
range, every other record is untouched. -/
def alterOne (bid : Nat) (t : TimeRange) (b : Booking) : Booking :=
  if b.id = bid then { b with range := t } else b

/-- Modelled from the spec: BookingTransactionManager.alter — against the same
room, validate the new interval is free excluding the booking's own interval,
then update the range in place; on conflict roll back leaving the original
booking intact; altering an unknown or cancelled booking fails with NotFound. -/
def alter (bs : List Booking) (bid : Nat) (t : TimeRange) :
    Except BookError (List Booking) :=
  match bs.find? (fun b => decide (b.id = bid ∧ b.status = BStatus.booked)) with
  | none => .error .notFound
  | some b0 =>
    if t.start < t.stop then
      if bs.all (fun b =>
          !(decide (b.id ≠ bid ∧ b.room = b0.room ∧ b.status = BStatus.booked ∧
              Overlap b.range t))) then
        .ok (bs.map (alterOne bid t))
      else .error .conflict
    else .error .validationError

/-- Embedding of confirmBooking from BookingPage: a blank title fires an error
toast; otherwise the modal closes and the form resets.  In either case no
Booking record is created or modified — the success path only shows a toast. -/
def confirmBooking (bs : List Booking) (form : BookingForm) :
    List Booking × BookingForm × Bool :=
  if isBlank form.title then (bs, form, false)
  else (bs, ⟨"", 60⟩, true)

/-- One client-visible operation on the booking store. -/
inductive Op
  | book (r org title : String) (t : TimeRange)
  | cancel (bid : Nat)
  | alter (bid : Nat) (t : TimeRange)
  | confirm (form : BookingForm)
deriving Repr

/-- The new store an operation outcome yields: the successor store on success,
the unchanged store on failure. -/
def fallback (bs : List Booking) : Except BookError (List Booking) → List Booking
  | .ok bs2 => bs2
  | .error _ => bs

/-- Apply one operation; a failing operation leaves the store unchanged. -/
def applyOp (bs : List Booking) : Op → List Booking
  | .book r org title t => fallback bs (book bs r org title t)
  | .cancel bid => fallback bs (cancel bs bid)
  | .alter bid t => fallback bs (alter bs bid t)
  | .confirm form => (confirmBooking bs form).1

/-- Run a sequence of operations from a starting store. -/
def run (bs : List Booking) (ops : List Op) : List Booking :=
  ops.foldl applyOp bs

/-- The time ranges of the bookings with status booked for a given room. -/
def bookedRanges (bs : List Booking) (r : String) : List TimeRange :=
  (bs.filter fun b => decide (b.room = r ∧ b.status = BStatus.booked)).map Booking.range

/-- The store invariant: distinct entries carry distinct identifiers, and two
booked entries for the same room never overlap. -/
def GoodRel (a b : Booking) : Prop :=
  a.id ≠ b.id ∧
    (a.room = b.room → a.status = BStatus.booked → b.status = BStatus.booked →
      ¬ Overlap a.range b.range)

/-- A store is good when GoodRel holds pairwise. -/
def GoodState (bs : List Booking) : Prop := List.Pairwise GoodRel bs

/-! ### Preservation of the store invariant -/

lemma overlap_symm {a b : TimeRange} (h : Overlap a b) : Overlap b a := ⟨h.2, h.1⟩

lemma goodRel_symm : Symmetric GoodRel := by
  intro a b h
  exact ⟨fun e => h.1 e.symm,
    fun hr hb ha hov => h.2 hr.symm ha hb (overlap_symm hov)⟩

lemma cancelOne_id (bid : Nat) (b : Booking) : (cancelOne bid b).id = b.id := by
  unfold cancelOne; split <;> rfl

lemma cancelOne_room (bid : Nat) (b : Booking) : (cancelOne bid b).room = b.room := by
  unfold cancelOne; split <;> rfl

lemma cancelOne_range (bid : Nat) (b : Booking) : (cancelOne bid b).range = b.range := by
  unfold cancelOne; split <;> rfl

lemma cancelOne_status (bid : Nat) (b : Booking)
    (h : (cancelOne bid b).status = BStatus.booked) : b.status = BStatus.booked := by
  unfold cancelOne at h
  split at h
  · cases h
  · exact h

lemma alterOne_id (bid : Nat) (t : TimeRange) (b : Booking) :
    (alterOne bid t b).id = b.id := by
  unfold alterOne; split <;> rfl

lemma alterOne_room (bid : Nat) (t : TimeRange) (b : Booking) :
    (alterOne bid t b).room = b.room := by
  unfold alterOne; split <;> rfl

lemma alterOne_status (bid : Nat) (t : TimeRange) (b : Booking) :
    (alterOne bid t b).status = b.status := by
  unfold alterOne; split <;> rfl

lemma alterOne_of_ne (bid : Nat) (t : TimeRange) (b : Booking) (h : b.id ≠ bid) :
    alterOne bid t b = b := by
  unfold alterOne; exact if_neg h

lemma alterOne_range_of_eq (bid : Nat) (t : TimeRange) (b : Booking) (h : b.id = bid) :
    (alterOne bid t b).range = t := by
  unfold alterOne; rw [if_pos h]

lemma id_lt_freshId {bs : List Booking} {b : Booking} (h : b ∈ bs) : b.id < freshId bs := by
  induction bs with
  | nil => cases h
  | cons x xs ih =>
    have hfold : freshId (x :: xs) = max (x.id + 1) (freshId xs) := rfl
    rcases List.mem_cons.1 h with hx | hxs
    · subst hx
      exact hfold ▸ Nat.lt_of_lt_of_le (Nat.lt_succ_self _) (Nat.le_max_left _ _)
    · exact hfold ▸ Nat.lt_of_lt_of_le (ih hxs) (Nat.le_max_right _ _)

lemma isFree_spec {bs : List Booking} {r : String} {t : TimeRange}
    (h : isFree bs r t = true) :
    ∀ b ∈ bs, b.room = r → b.status = BStatus.booked → ¬ Overlap b.range t := by
  intro b hb hr hs hov
  have := (List.all_eq_true.1 h) b hb
  simp only [Bool.not_eq_true', decide_eq_false_iff_not] at this
  exact this ⟨hr, hs, hov⟩

lemma goodState_book {bs bs' : List Booking} {r org title : String} {t : TimeRange}
    (h : GoodState bs) (hb : book bs r org title t = Except.ok bs') : GoodState bs' := by
  unfold book at hb
  split at hb
  · split at hb
    · rename_i hfree
      cases hb
      refine List.pairwise_append.2 ⟨h, List.pairwise_singleton .., ?_⟩
      intro a ha nb hnb
      have : nb = ⟨freshId bs, r, org, title, t, BStatus.booked⟩ := by
        simpa using hnb
      subst this
      refine ⟨Nat.ne_of_lt (id_lt_freshId ha), ?_⟩
      intro hroom hsa _ hov
      exact isFree_spec hfree a ha hroom hsa hov
    · cases hb
  · cases hb

lemma goodState_cancel {bs bs' : List Booking} {bid : Nat}
    (h : GoodState bs) (hc : cancel bs bid = Except.ok bs') : GoodState bs' := by
  unfold cancel at hc
  split at hc
  · cases hc
    refine (List.pairwise_map).2 (h.imp ?_)
    intro a b hab
    refine ⟨?_, ?_⟩
    · rw [cancelOne_id, cancelOne_id]; exact hab.1
    · intro hroom hsa hsb
      rw [cancelOne_range, cancelOne_range]
      rw [cancelOne_room, cancelOne_room] at hroom
      exact hab.2 hroom (cancelOne_status _ _ hsa) (cancelOne_status _ _ hsb)
  · cases hc

lemma goodState_alter {bs bs' : List Booking} {bid : Nat} {t : TimeRange}
    (h : GoodState bs) (ha : alter bs bid t = Except.ok bs') : GoodState bs' := by
  cases hf : bs.find? (fun b => decide (b.id = bid ∧ b.status = BStatus.booked)) with
  | none =>
    unfold alter at ha
    simp only [hf] at ha
    exact Except.noConfusion ha
  | some b0 =>
    unfold alter at ha
    simp only [hf] at ha
    split at ha
    · split at ha
      · rename_i hall
        cases ha
        have hb0mem : b0 ∈ bs := List.mem_of_find?_eq_some hf
        have hb0p : b0.id = bid ∧ b0.status = BStatus.booked := by
          have := List.find?_some hf
          simpa using this
        have hcheck : ∀ b ∈ bs, b.id ≠ bid → b.room = b0.room →
            b.status = BStatus.booked → ¬ Overlap b.range t := by
          intro b hbmem hbid hroom hst hov
          have := (List.all_eq_true.1 hall) b hbmem
          simp only [Bool.not_eq_true', decide_eq_false_iff_not] at this
          exact this ⟨hbid, hroom, hst, hov⟩
        have huniq : ∀ a ∈ bs, a.id = bid → a = b0 := by
          intro a hamem haid
          by_contra hne
          exact (h.forall goodRel_symm hamem hb0mem hne).1 (haid.trans hb0p.1.symm)
        refine (List.pairwise_map).2 (h.imp_of_mem ?_)
        intro a b hma hmb hab
        refine ⟨?_, ?_⟩
        · rw [alterOne_id, alterOne_id]; exact hab.1
        · intro hroom hsa hsb
          rw [alterOne_room, alterOne_room] at hroom
          rw [alterOne_status] at hsa hsb
          by_cases haid : a.id = bid
          · have hae : a = b0 := huniq a hma haid
            have hbid : b.id ≠ bid := fun e => hab.1 (haid.trans e.symm)
            rw [alterOne_range_of_eq _ _ _ haid, alterOne_of_ne _ _ _ hbid]
            intro hov
            exact hcheck b hmb hbid (hae ▸ hroom.symm) hsb (overlap_symm hov)
          · by_cases hbid : b.id = bid
            · have hbe : b = b0 := huniq b hmb hbid
              rw [alterOne_range_of_eq _ _ _ hbid, alterOne_of_ne _ _ _ haid]
              exact hcheck a hma haid (hbe ▸ hroom) hsa
            · rw [alterOne_of_ne _ _ _ haid, alterOne_of_ne _ _ _ hbid]
              exact hab.2 hroom hsa hsb
      · cases ha
    · cases ha

lemma goodState_fallback {bs : List Booking} (h : GoodState bs)
    (e : Except BookError (List Booking))
    (hok : ∀ bs2, e = Except.ok bs2 → GoodState bs2) : GoodState (fallback bs e) := by
  cases e with
  | ok bs2 => exact hok bs2 rfl
  | error err => exact h

lemma confirmBooking_fst (bs : List Booking) (form : BookingForm) :
    (confirmBooking bs form).1 = bs := by
  unfold confirmBooking; split <;> rfl

lemma goodState_applyOp {bs : List Booking} (h : GoodState bs) (op : Op) :
    GoodState (applyOp bs op) := by
  cases op with
  | book r org title t =>
    exact goodState_fallback h _ (fun bs2 hb => goodState_book h hb)
  | cancel bid =>
    exact goodState_fallback h _ (fun bs2 hc => goodState_cancel h hc)
  | alter bid t =>
    exact goodState_fallback h _ (fun bs2 ha => goodState_alter h ha)
  | confirm form =>
    show GoodState (confirmBooking bs form).1
    rw [confirmBooking_fst]
    exact h

lemma goodState_run {bs : List Booking} (h : GoodState bs) (ops : List Op) :
    GoodState (run bs ops) := by
  induction ops generalizing bs with
  | nil => exact h
  | cons op ops ih => exact ih (goodState_applyOp h op)

lemma goodState_bookedRanges {bs : List Booking} (h : GoodState bs) (r : String) :
    List.Pairwise (fun a b => ¬ Overlap a b) (bookedRanges bs r) := by
  unfold bookedRanges
  refine (List.pairwise_map).2 ?_
  refine (h.filter _).imp_of_mem ?_
  intro a b hma hmb hab
  have hpa := (List.mem_filter.1 hma).2
  have hpb := (List.mem_filter.1 hmb).2
  simp only [decide_eq_true_eq] at hpa hpb
  exact hab.2 (hpa.1.trans hpb.1.symm) hpa.2 hpb.2

/-! ### Claim theorems -/

/-- C1: For every room, at every state reachable from the empty store by any
sequence of book/cancel/alter operations — including the confirmBooking flow of
BookingPage — the TimeRanges of the bookings with status booked for that room
are pairwise non-overlapping. -/
theorem booked_ranges_pairwise_nonoverlapping (ops : List Op) (r : String) :
    List.Pairwise (fun a b => ¬ Overlap a b) (bookedRanges (run [] ops) r) :=
  goodState_bookedRanges (goodState_run List.Pairwise.nil ops) r

/-- Witness for C1 at a concrete operation sequence and room. -/
theorem booked_ranges_pairwise_nonoverlapping_witness :
    List.Pairwise (fun a b => ¬ Overlap a b)
      (bookedRanges (run [] [Op.book "A301" "u1" "standup" ⟨900, 960⟩]) "A301") :=
  booked_ranges_pairwise_nonoverlapping [Op.book "A301" "u1" "standup" ⟨900, 960⟩] "A301"

/-- A concrete BookingPage state holding the example request text the page
suggests as a placeholder. -/
def demoState : BookingPageState :=
  ⟨"明天下午三点，10人，A栋，需要视频会议", false, none, []⟩

lemma handleSubmit_demoState :
    handleSubmit demoState =
      ({ demoState with isProcessing := false, intent := some mockIntent,
                        recommendations := mockRecommendations },
       SubmitOutcome.ok mockIntent mockRecommendations) := by
  unfold handleSubmit
  rw [if_neg (by decide)]

/-- C2 fails on the code: in the published recommendation list, A305 with score
0.75 precedes B201 with score 0.88, so the list is not sorted descending by
match score. -/
theorem handleSubmit_recs_not_sorted_by_score :
    ¬ List.Pairwise recBefore (handleSubmit demoState).1.recommendations := by
  intro hp
  rw [handleSubmit_demoState] at hp
  have h2 : recBefore recA305 recB201 :=
    (List.pairwise_cons.1 (List.pairwise_cons.1 hp).2).1 recB201 (by simp)
  rcases h2 with hlt | ⟨heq, _⟩
  · norm_num [recA305, recB201, recBefore] at hlt
  · norm_num [recA305, recB201, recBefore] at heq

/-- C2 (amended): every recommendation list published by handleSubmit is in
ascending order of room identifier; it is not sorted descending by match score,
since A305 (score 0.75) precedes B201 (score 0.88). -/
theorem handleSubmit_recs_sorted_by_room_id (s : BookingPageState)
    (i : MeetingIntent) (recs : List RoomRecommendation)
    (h : (handleSubmit s).2 = SubmitOutcome.ok i recs) :
    List.Pairwise (fun a b => a.room_id < b.room_id) recs := by
  unfold handleSubmit at h
  split at h
  · exact SubmitOutcome.noConfusion h
  · cases h
    have h12 : recA301.room_id < recA305.room_id := by
      rw [String.lt_iff_toList_lt]; decide
    have h13 : recA301.room_id < recB201.room_id := by
      rw [String.lt_iff_toList_lt]; decide
    have h23 : recA305.room_id < recB201.room_id := by
      rw [String.lt_iff_toList_lt]; decide
    simp only [mockRecommendations]
    refine List.Pairwise.cons ?_ (List.Pairwise.cons ?_ (List.Pairwise.cons ?_ List.Pairwise.nil))
    · intro x hx
      simp only [List.mem_cons, List.not_mem_nil, or_false] at hx
      rcases hx with rfl | rfl
      · exact h12
      · exact h13
    · intro x hx
      simp only [List.mem_cons, List.not_mem_nil, or_false] at hx
      rcases hx with rfl
      exact h23
    · intro x hx
      simp at hx

/-- Witness for the amended C2 at a concrete state. -/
theorem handleSubmit_recs_sorted_by_room_id_witness :
    List.Pairwise (fun a b => a.room_id < b.room_id) mockRecommendations :=
  handleSubmit_recs_sorted_by_room_id demoState mockIntent mockRecommendations
    (by rw [handleSubmit_demoState])

/-- C3: On the Scenario A request (10 participants, location A, required
equipment video, afternoon slot) the published recommendations include room
A301 — capacity 12, equipment containing video conferencing and whiteboard —
with match score strictly above 0.9 and an empty deviation list. -/
theorem scenarioA_recommendation :
    (handleSubmit demoState).2 = SubmitOutcome.ok mockIntent mockRecommendations ∧
    mockIntent.participants = 10 ∧
    mockIntent.location = "A栋" ∧
    mockIntent.requirements = ["视频会议"] ∧
    recA301 ∈ mockRecommendations ∧
    recA301.room_id = "A301" ∧
    recA301.capacity = 12 ∧
    "视频会议" ∈ recA301.equipment ∧
    "白板" ∈ recA301.equipment ∧
    9/10 < recA301.match_score ∧
    recA301.deviation = [] := by
  refine ⟨by rw [handleSubmit_demoState], rfl, rfl, rfl, by simp [mockRecommendations],
    rfl, rfl, by simp [recA301], by simp [recA301], by norm_num [recA301], rfl⟩

/-- C4: every recommendation published by handleSubmit carries a match score
within the closed interval from 0 to 1. -/
theorem handleSubmit_scores_bounded (s : BookingPageState) (i : MeetingIntent)
    (recs : List RoomRecommendation) (h : (handleSubmit s).2 = SubmitOutcome.ok i recs)
    (rec : RoomRecommendation) (hrec : rec ∈ recs) :
    0 ≤ rec.match_score ∧ rec.match_score ≤ 1 := by
  unfold handleSubmit at h
  split at h
  · exact SubmitOutcome.noConfusion h
  · cases h
    simp only [mockRecommendations, List.mem_cons, List.not_mem_nil, or_false] at hrec
    rcases hrec with h1 | h1 | h1 <;> subst h1 <;>
      norm_num [recA301, recA305, recB201]

/-- Witness for C4 at the A301 recommendation. -/
theorem handleSubmit_scores_bounded_witness :
    0 ≤ recA301.match_score ∧ recA301.match_score ≤ 1 :=
  handleSubmit_scores_bounded demoState mockIntent mockRecommendations
    (by rw [handleSubmit_demoState]) recA301 (by simp [mockRecommendations])

/-- C5: handleSubmit is deterministic — two calls over states with the same
input text report identical outcomes, hence identical recommendation ordering
and scores. -/
theorem handleSubmit_deterministic (s₁ s₂ : BookingPageState)
    (h : s₁.inputText = s₂.inputText) :
    (handleSubmit s₁).2 = (handleSubmit s₂).2 := by
  by_cases hc : isBlank s₂.inputText = true <;>
    simp [handleSubmit, h, hc]

/-- Witness for C5 at two concrete states sharing the same input text. -/
theorem handleSubmit_deterministic_witness :
    (handleSubmit ⟨"开会", false, none, []⟩).2 =
      (handleSubmit ⟨"开会", true, some mockIntent, mockRecommendations⟩).2 :=
  handleSubmit_deterministic _ _ rfl

/-- C6 fails on the code: the room status of the data model takes the value
available, which is neither active nor retired. -/
theorem roomStatus_not_active_retired :
    ¬ (RoomStatus.toStr RoomStatus.available = "active" ∨
       RoomStatus.toStr RoomStatus.available = "retired") := by
  decide

/-- C6 (amended): every Room status is drawn from the closed enumeration of
available and booked, and every Meeting status from the closed enumeration of
booked and cancelled. -/
theorem status_enumerations_closed :
    (∀ s : RoomStatus,
        RoomStatus.toStr s = "available" ∨ RoomStatus.toStr s = "booked") ∧
    (∀ m : MeetingStatus,
        MeetingStatus.toStr m = "booked" ∨ MeetingStatus.toStr m = "cancelled") := by
  constructor
  · intro s; cases s
    · exact Or.inl rfl
    · exact Or.inr rfl
  · intro m; cases m
    · exact Or.inl rfl
    · exact Or.inr rfl

/-- Witness for the amended C6 at the available room status. -/
theorem status_enumerations_closed_witness :
    RoomStatus.toStr RoomStatus.available = "available" ∨
      RoomStatus.toStr RoomStatus.available = "booked" :=
  status_enumerations_closed.1 RoomStatus.available

/-- C7: a blank (empty after trimming) input text makes handleSubmit fail with
the validation toast and leave the whole page state — in particular the intent
and the recommendations — unchanged. -/
theorem handleSubmit_blank_noop (s : BookingPageState) (h : isBlank s.inputText = true) :
    handleSubmit s = (s, SubmitOutcome.validationError) := by
  unfold handleSubmit
  rw [if_pos h]

/-- Witness for C7 at a whitespace-only input. -/
theorem handleSubmit_blank_noop_witness :
    handleSubmit ⟨"   ", false, none, []⟩ =
      (⟨"   ", false, none, []⟩, SubmitOutcome.validationError) :=
  handleSubmit_blank_noop ⟨"   ", false, none, []⟩ (by decide)

/-- C8: getMatchScoreColor returns bg-green-500 exactly on scores at least 0.9,
bg-yellow-500 exactly on scores in [0.7, 0.9), and bg-red-500 exactly on scores
below 0.7. -/
theorem getMatchScoreColor_thresholds (s : ℚ) :
    (getMatchScoreColor s = "bg-green-500" ↔ 9/10 ≤ s) ∧
    (getMatchScoreColor s = "bg-yellow-500" ↔ 7/10 ≤ s ∧ s < 9/10) ∧
    (getMatchScoreColor s = "bg-red-500" ↔ s < 7/10) := by
  by_cases h9 : 9/10 ≤ s
  · have hg : getMatchScoreColor s = "bg-green-500" := by
      unfold getMatchScoreColor; rw [if_pos h9]
    rw [hg]
    exact ⟨⟨fun _ => h9, fun _ => rfl⟩,
      ⟨fun he => absurd he (by decide), fun hc => absurd h9 (not_le.2 hc.2)⟩,
      ⟨fun he => absurd he (by decide),
       fun hc => absurd hc (not_lt.2 (le_trans (by norm_num) h9))⟩⟩
  · by_cases h7 : 7/10 ≤ s
    · have hy : getMatchScoreColor s = "bg-yellow-500" := by
        unfold getMatchScoreColor; rw [if_neg h9, if_pos h7]
      rw [hy]
      exact ⟨⟨fun he => absurd he (by decide), fun hge => absurd hge h9⟩,
        ⟨fun _ => ⟨h7, not_le.1 h9⟩, fun _ => rfl⟩,
        ⟨fun he => absurd he (by decide), fun hc => absurd hc (not_lt.2 h7)⟩⟩
    · have hr : getMatchScoreColor s = "bg-red-500" := by
        unfold getMatchScoreColor; rw [if_neg h9, if_neg h7]
      rw [hr]
      exact ⟨⟨fun he => absurd he (by decide), fun hge => absurd hge h9⟩,
        ⟨fun he => absurd he (by decide), fun hc => absurd hc.1 h7⟩,
        ⟨fun _ => not_le.1 h7, fun _ => rfl⟩⟩

/-- Witness for C8 at the concrete score 0.92. -/
theorem getMatchScoreColor_thresholds_witness :
    (getMatchScoreColor (92/100) = "bg-green-500" ↔ 9/10 ≤ (92 : ℚ)/100) ∧
    (getMatchScoreColor (92/100) = "bg-yellow-500" ↔
      7/10 ≤ (92 : ℚ)/100 ∧ (92 : ℚ)/100 < 9/10) ∧
    (getMatchScoreColor (92/100) = "bg-red-500" ↔ (92 : ℚ)/100 < 7/10) :=
  getMatchScoreColor_thresholds (92/100)

/-- C9: updateTaskStatus keeps the list length and order, rewrites exactly the
status field of the tasks whose identifier matches while keeping their other
fields, leaves every other task untouched, and is the identity when no task
carries the given identifier. -/
theorem updateTaskStatus_frame (tasks : List Task) (taskId : String)
    (newStatus : TaskStatus) :
    (updateTaskStatus tasks taskId newStatus).length = tasks.length ∧
    (∀ i : Nat, (updateTaskStatus tasks taskId newStatus)[i]? =
      (tasks[i]?).map fun t =>
        if t.id = taskId then { t with status := newStatus } else t) ∧
    ((∀ t ∈ tasks, t.id ≠ taskId) →
      updateTaskStatus tasks taskId newStatus = tasks) := by
  unfold updateTaskStatus
  refine ⟨List.length_map _ _, fun i => List.getElem?_map _ _ _, ?_⟩
  intro hno
  induction tasks with
  | nil => rfl
  | cons t ts ih =>
    simp only [List.map_cons]
    rw [if_neg (hno t (List.mem_cons_self t ts)),
        ih (fun x hx => hno x (List.mem_cons_of_mem t hx))]

/-- Witness for C9: updating a status nobody carries leaves the mock task list
unchanged. -/
theorem updateTaskStatus_frame_witness :
    updateTaskStatus mockTasks "999" TaskStatus.done = mockTasks :=
  (updateTaskStatus_frame mockTasks "999" TaskStatus.done).2.2 (by decide)

/-- C10: handleAddUser is atomic on validation failure — an empty username or
department leaves the user list unchanged and signals an error — and otherwise
appends exactly one user with the given username, role and department while
preserving every previously present user, then resets the form. -/
theorem handleAddUser_atomic (users : List User) (form : NewUserForm)
    (newId : String) :
    ((form.username = "" ∨ form.department = "") →
      handleAddUser users form newId = (users, form, AddUserOutcome.validationError)) ∧
    (form.username ≠ "" → form.department ≠ "" →
      handleAddUser users form newId =
        (users ++ [⟨newId, form.username, form.role, form.department⟩],
         emptyNewUserForm, AddUserOutcome.added)) := by
  constructor
  · intro hempty
    unfold handleAddUser
    rw [if_pos hempty]
  · intro hu hd
    unfold handleAddUser
    rw [if_neg (fun h => h.elim hu hd)]

/-- Witness for C10: adding a filled-in user to the mock user list appends it. -/
theorem handleAddUser_atomic_witness :
    handleAddUser mockUsers ⟨"赵六", Role.organizer, "产品部"⟩ "5" =
      (mockUsers ++ [⟨"5", "赵六", Role.organizer, "产品部"⟩],
       emptyNewUserForm, AddUserOutcome.added) :=
  (handleAddUser_atomic mockUsers ⟨"赵六", Role.organizer, "产品部"⟩ "5").2
    (by decide) (by decide)

end OmniArch
